import Mathlib

/-!
Shallow embedding of declination.py, a pipeline that turns input lines of
location/date data into magnetic-declination report lines by querying a
remote geomagnetic service.

Modelling conventions:
* Python floats are modelled as rationals; the builtin float(...) constructor
  is modelled (on the plain decimal literals this program feeds it) by
  parseFloat below, returning none where float(...) raises ValueError.
* Python exceptions are modelled by the PyExc type; a function that can raise
  returns Except PyExc.  An Except.error escaping process_inputfile_object
  models an uncaught exception terminating the run.
* The remote HTTP service (requests.get) is a parameter: an oracle mapping the
  request parameters to either a raw response text or a transport failure.
  requests.get accepts either a dict or a plain string as params, and the
  program passes both, so the oracle argument type Params has both cases.
-/

namespace Declination

/-- Python exception kinds relevant to this program. transportError stands for
any exception raised inside requests.get. -/
inductive PyExc where
  | indexError
  | valueError
  | typeError
  | transportError
deriving DecidableEq, Repr

/-- Characters treated as whitespace by the Python str.strip and str.split
used here (space, tab, newline, carriage return, form feed, vertical tab). -/
def pyIsSpace (c : Char) : Bool :=
  c = ' ' || c = '\t' || c = '\n' || c = '\r' || c = '\x0b' || c = '\x0c'

/-- Model of str.strip on a character list. -/
def pyStripChars (cs : List Char) : List Char :=
  ((cs.dropWhile pyIsSpace).reverse.dropWhile pyIsSpace).reverse

/-- Model of str.strip. -/
def pyStrip (s : String) : String :=
  ⟨pyStripChars s.data⟩

/-- Helper for pySplitWs: splits a character list on runs of whitespace,
dropping empty pieces; acc holds the current token reversed. -/
def pySplitWsAux : List Char → List Char → List (List Char)
  | [], acc => if acc.isEmpty then [] else [acc.reverse]
  | c :: cs, acc =>
      if pyIsSpace c then
        if acc.isEmpty then pySplitWsAux cs []
        else acc.reverse :: pySplitWsAux cs []
      else pySplitWsAux cs (c :: acc)

/-- Model of str.split() with no separator: split on whitespace runs,
no empty tokens. -/
def pySplitWs (s : String) : List String :=
  (pySplitWsAux s.data []).map fun cs => ⟨cs⟩

/-- Helper for pySplitChar: split on a single separator character, keeping
empty pieces, as Python str.split(sep) does. -/
def pySplitCharAux (sep : Char) : List Char → List Char → List (List Char)
  | [], acc => [acc.reverse]
  | c :: cs, acc =>
      if c = sep then acc.reverse :: pySplitCharAux sep cs []
      else pySplitCharAux sep cs (c :: acc)

/-- Model of str.split(sep) for a one-character separator. -/
def pySplitChar (sep : Char) (s : String) : List String :=
  (pySplitCharAux sep s.data []).map fun cs => ⟨cs⟩

/-- Model of the Python slice s[:-1]: drop the last character (identity on the
empty string). -/
def pyDropLast (s : String) : String :=
  ⟨s.data.dropLast⟩

/-- Leading decimal digits of a character list, and the rest. -/
def takeDigits : List Char → List Char × List Char
  | [] => ([], [])
  | c :: cs =>
      if c.isDigit then
        let p := takeDigits cs
        (c :: p.1, p.2)
      else ([], c :: cs)

/-- Numeric value of a list of decimal digit characters. -/
def digitsToNat (ds : List Char) : Nat :=
  ds.foldl (fun n c => 10 * n + (c.toNat - 48)) 0

/-- Rational addition spelled out on numerators and denominators.  Used in
place of the + of the rationals inside executable definitions (ratAdd_eq
below shows it is the same operation) so that concrete runs of the pipeline
reduce definitionally. -/
def ratAdd (a b : ℚ) : ℚ :=
  Rat.divInt (a.num * b.den + b.num * a.den) (a.den * b.den)

/-- Rational subtraction spelled out on numerators and denominators; see
ratAdd. -/
def ratSub (a b : ℚ) : ℚ :=
  Rat.divInt (a.num * b.den - b.num * a.den) (a.den * b.den)

/-- Rational division spelled out on numerators and denominators; see
ratAdd. -/
def ratDiv (a b : ℚ) : ℚ :=
  Rat.divInt (a.num * b.den) (a.den * b.num)

/-- Model of the Python float(...) constructor on the inputs this program
feeds it: optional surrounding whitespace, optional sign, then a plain decimal
literal (digits, or digits.digits, or .digits, or digits.).  Returns none
where float(...) raises ValueError (for example on the token abc).  Exponent
forms, infinities and nan are not modelled; the program never receives them. -/
def parseFloat (s : String) : Option ℚ :=
  let cs := pyStripChars s.data
  let signAndRest : Bool × List Char :=
    match cs with
    | '-' :: rest => (true, rest)
    | '+' :: rest => (false, rest)
    | _ => (false, cs)
  let neg := signAndRest.1
  let p := takeDigits signAndRest.2
  match p.2 with
  | [] =>
      if p.1.isEmpty then none
      else
        let n : ℤ := digitsToNat p.1
        some (Rat.divInt (if neg then -n else n) 1)
  | '.' :: cs2 =>
      let q := takeDigits cs2
      if q.2.isEmpty && !(p.1.isEmpty && q.1.isEmpty) then
        let den : ℕ := Nat.pow 10 q.1.length
        let n : ℤ := digitsToNat p.1 * den + digitsToNat q.1
        some (Rat.divInt (if neg then -n else n) den)
      else none
  | _ => none

/-- Python list indexing a[i] for a nonnegative index: IndexError when out of
range. -/
def pyGet (a : List String) (i : Nat) : Except PyExc String :=
  match a[i]? with
  | some v => .ok v
  | none => .error .indexError

/-- float(s) as an Except computation: ValueError when the text is not
numeric. -/
def pyFloat (s : String) : Except PyExc ℚ :=
  match parseFloat s with
  | some q => .ok q
  | none => .error .valueError

/-! Constants of the source. -/

/-- COMMENT_INDICATOR in the source. -/
def COMMENT_INDICATOR : Char := '#'

/-- n_FIELDS in the source: the module-level global used by line2array. -/
def n_FIELDS : Nat := 8

/-- test_line in the source. -/
def test_line : String := "2015 08 28  63 375  96 15  -2.46"

/-- The three-way return of line2array: None, an error string, or the token
list. -/
inductive Line2ArrayResult where
  | none
  | error (msg : String)
  | parts (a : List String)
deriving DecidableEq, Repr

/-- line2array from the source.  Strips the line; returns none for an empty
result or a comment; splits on whitespace; when the n_fields argument is
nonzero and the token count is below the global n_FIELDS (the source compares
against the global, not against its parameter) returns the error string;
otherwise returns the token list. -/
def line2array (line : String) (n_fields : Nat) : Line2ArrayResult :=
  match (pyStrip line).data with
  | [] => .none
  | c :: _ =>
      if c = COMMENT_INDICATOR then .none
      else
        let parts := pySplitWs (pyStrip line)
        if n_fields ≠ 0 ∧ parts.length < n_FIELDS then
          .error "Error: Bad input line- not enough entries."
        else .parts parts

/-- The dictionary built by line_array2query_dict, with the same keys. -/
structure QueryDict where
  lat_d : String
  lat_m : String
  lon_d : String
  lon_m : String
  grid_offset : ℚ
  startYear : String
  startMonth : String
  startDay : String
  lat1 : ℚ
  lon1 : ℚ
  lat1Hemisphere : String
  lon1Hemisphere : String
  ajaz : String
  resultFormat : String
  grid : String
deriving DecidableEq, Repr

/-- Return type of line_array2query_dict: the dict, the returned error string
(when a ValueError was caught), or an uncaught exception (IndexError is not
caught by the try block). -/
inductive QueryBuildResult where
  | exn (e : PyExc)
  | errorString (msg : String)
  | ok (q : QueryDict)
deriving DecidableEq, Repr

/-- Body of the try block of line_array2query_dict: the keyword arguments of
dict(...) evaluated left to right, any raising aborting the rest. -/
def queryBody (a : List String) : Except PyExc QueryDict := do
  let lat_d ← pyGet a 3
  let lat_m ← pyGet a 4
  let lon_d ← pyGet a 5
  let lon_m ← pyGet a 6
  let grid_offset ← pyFloat (← pyGet a 7)
  let startYear ← pyGet a 0
  let startMonth ← pyGet a 1
  let startDay ← pyGet a 2
  let d3 ← pyFloat (← pyGet a 3)
  let m4 ← pyFloat (← pyGet a 4)
  let d5 ← pyFloat (← pyGet a 5)
  let m6 ← pyFloat (← pyGet a 6)
  pure {
    lat_d := lat_d
    lat_m := lat_m
    lon_d := lon_d
    lon_m := lon_m
    grid_offset := grid_offset
    startYear := startYear
    startMonth := startMonth
    startDay := startDay
    lat1 := ratAdd d3 (ratDiv m4 (Rat.divInt 60 1))
    lon1 := ratAdd d5 (ratDiv m6 (Rat.divInt 60 1))
    lat1Hemisphere := "N"
    lon1Hemisphere := "W"
    ajaz := "true"
    resultFormat := "csv"
    grid := "on" }

/-- line_array2query_dict from the source: builds the query dict from the
token list; except ValueError returns the error string; any other exception
(IndexError from too few tokens) propagates. -/
def line_array2query_dict (a : List String) : QueryBuildResult :=
  match queryBody a with
  | .ok q => .ok q
  | .error .valueError =>
      .errorString "Error: Probably could not convert degrees &/or minutes into float."
  | .error e => .exn e

/-- The dictionary built by response_array2dict, with the same keys. -/
structure ResultDict where
  decimal_year : ℚ
  latitude : ℚ
  longitude : ℚ
  elevation : ℚ
  declination : ℚ
  decl_sv : ℚ
  decl_uncertainty : ℚ
deriving DecidableEq, Repr

/-- response_array2dict from the source: converts all seven comma fields with
float(...), negating the longitude; any missing or non-numeric field raises. -/
def response_array2dict (a : List String) : Except PyExc ResultDict := do
  let decimal_year ← pyFloat (← pyGet a 0)
  let latitude ← pyFloat (← pyGet a 1)
  let lonRaw ← pyFloat (← pyGet a 2)
  let elevation ← pyFloat (← pyGet a 3)
  let declination ← pyFloat (← pyGet a 4)
  let decl_sv ← pyFloat (← pyGet a 5)
  let decl_uncertainty ← pyFloat (← pyGet a 6)
  pure {
    decimal_year := decimal_year
    latitude := latitude
    longitude := -lonRaw
    elevation := elevation
    declination := declination
    decl_sv := decl_sv
    decl_uncertainty := decl_uncertainty }

/-- response2dict from the source: splits the raw response on newlines, takes
the second-to-last line (lines[-2], IndexError when fewer than two lines),
splits it on commas and hands it to response_array2dict. -/
def response2dict (response : String) : Except PyExc ResultDict :=
  let lns := pySplitChar '\n' response
  if 2 ≤ lns.length then
    response_array2dict (pySplitChar ',' (lns.getD (lns.length - 2) ""))
  else .error .indexError

/-- Round the fraction n over d (d positive) to the nearest integer, ties to
even, as Python float formatting does on the modelled values. -/
def roundHalfEvenFrac (n d : ℤ) : ℤ :=
  let f := Int.fdiv n d
  let r2 := 2 * (n - f * d)
  if r2 < d then f
  else if d < r2 then f + 1
  else if f % 2 = 0 then f else f + 1

/-- Left-pad with a fill character to the given width (the Python format
specs 0>2 and >6). -/
def padLeft (fill : Char) (w : Nat) (s : String) : String :=
  ⟨List.replicate (w - s.data.length) fill⟩ ++ s

/-- Right-pad with spaces to the given width (the Python format spec <4). -/
def padRight (w : Nat) (s : String) : String :=
  s ++ ⟨List.replicate (w - s.data.length) ' '⟩

/-- The Python format spec .3f on the modelled rational values: fixed three
decimal places (the scaling by 1000 is done on the numerator so that the
function evaluates definitionally). -/
def pyF3 (q : ℚ) : String :=
  let n := roundHalfEvenFrac (1000 * q.num) q.den
  let sign := if n < 0 then "-" else ""
  let m := n.natAbs
  sign ++ toString (m / 1000) ++ "." ++ padLeft '0' 3 (toString (m % 1000))

/-- The degree sign glyph used by the output format. -/
def degreeSign : String := "°"

/-- The prime glyph used by the output format. -/
def primeSign : String := "′"

/-- processed_line from the source: the space-join of the seven format
fragments, combining the input-derived dict, the response-derived dict, and
the inline grid declination (declination minus grid_offset). -/
def processed_line (in_dict : QueryDict) (site_dict : ResultDict) : String :=
  (padRight 4 in_dict.startYear ++ "-" ++ padLeft '0' 2 in_dict.startMonth ++ "-" ++
    padLeft '0' 2 in_dict.startDay) ++ " " ++
  (in_dict.lat_d ++ degreeSign ++ " " ++ in_dict.lat_m ++ primeSign) ++ " " ++
  (in_dict.lon_d ++ degreeSign ++ " " ++ in_dict.lon_m ++ primeSign) ++ " " ++
  (padLeft ' ' 6 (pyF3 in_dict.grid_offset) ++ " |") ++ " " ++
  (pyF3 site_dict.decimal_year ++ " " ++ padLeft ' ' 6 (pyF3 site_dict.latitude) ++
    degreeSign) ++ " " ++
  (padLeft ' ' 6 (pyF3 site_dict.longitude) ++ degreeSign) ++ " " ++
  (pyF3 site_dict.declination ++ " " ++
    pyF3 (ratSub site_dict.declination in_dict.grid_offset) ++ degreeSign)

/-- Parameters of a requests.get call.  The source normally passes the query
dict, but when line_array2query_dict returned its error string the driver
passes that string (requests accepts a plain string as params). -/
inductive Params where
  | dict (q : QueryDict)
  | str (s : String)
deriving DecidableEq, Repr

/-- A model of the remote service: maps request parameters to the raw response
text of requests.get(SITE, params).text, or to a transport failure raised
inside requests.get. -/
def Oracle : Type := Params → Except PyExc String

/-- get_response_dict from the source: performs the remote fetch and decodes
the response text; both steps may raise. -/
def get_response_dict (oracle : Oracle) (params : Params) : Except PyExc ResultDict := do
  let t ← oracle params
  response2dict t

/-- The diagnostic marker line emitted before a malformed input line. -/
def malformedMarker : String := "#! The following line is malformed:"

/-- Body of the loop of process_inputfile_object for one input line: comment
and blank lines are echoed as line[:-1]; an error string from line2array is
echoed after the diagnostic marker; a token list goes through
line_array2query_dict, the remote fetch, response decoding and formatting.
The result of line_array2query_dict is not inspected: an error string from it
is passed to get_response_dict as the request params, and then
processed_line, formatting a string where a dict is expected, raises
TypeError. -/
def process_line_step (oracle : Oracle) (line : String) : Except PyExc (List String) :=
  match line2array line n_FIELDS with
  | .none => .ok [pyDropLast line]
  | .error _ => .ok [malformedMarker, pyDropLast line]
  | .parts arr =>
      match line_array2query_dict arr with
      | .exn e => .error e
      | .errorString s => do
          let _ ← get_response_dict oracle (.str s)
          .error .typeError
      | .ok q => do
          let rd ← get_response_dict oracle (.dict q)
          .ok [processed_line q rd]

/-- process_inputfile_object from the source: processes the input lines in
order, collecting the per-line output lines; an exception raised while
processing any line propagates and aborts the whole run. -/
def process_inputfile_object (oracle : Oracle) : List String → Except PyExc (List String)
  | [] => .ok []
  | line :: rest => do
      let outs ← process_line_step oracle line
      let more ← process_inputfile_object oracle rest
      pure (outs ++ more)

/-- An oracle that always answers with a fixed response text, for concrete
evaluations. -/
def constOracle (t : String) : Oracle := fun _ => .ok t

/-- An oracle whose transport always fails. -/
def failingOracle : Oracle := fun _ => .error .transportError

/-! Concrete sample data, taken from the scenarios in the specification. -/

/-- The sample data row returned by the service. -/
def sample_data_row : String :=
  "2015.54795,61.1,-101.1,0.0,5.52539,-0.10319,0.68124"

/-- A raw response whose second-to-last line is sample_data_row (the split on
newlines ends with an empty trailing piece). -/
def sample_response : String := sample_data_row ++ "\n"

/-- The comma fields of sample_data_row. -/
def sample_fields : List String :=
  ["2015.54795", "61.1", "-101.1", "0.0", "5.52539", "-0.10319", "0.68124"]

/-- The decoded result record for sample_data_row. -/
def sample_record : ResultDict where
  decimal_year := Rat.divInt 201554795 100000
  latitude := Rat.divInt 611 10
  longitude := Rat.divInt 1011 10
  elevation := 0
  declination := Rat.divInt 552539 100000
  decl_sv := Rat.divInt (-10319) 100000
  decl_uncertainty := Rat.divInt 68124 100000

/-- The query dict built from test_line. -/
def sample_query : QueryDict where
  lat_d := "63"
  lat_m := "375"
  lon_d := "96"
  lon_m := "15"
  grid_offset := Rat.divInt (-246) 100
  startYear := "2015"
  startMonth := "08"
  startDay := "28"
  lat1 := Rat.divInt 277 4
  lon1 := Rat.divInt 385 4
  lat1Hemisphere := "N"
  lon1Hemisphere := "W"
  ajaz := "true"
  resultFormat := "csv"
  grid := "on"

/-! Helper lemmas. -/

/-- Bind on a successful Except computation. -/
@[simp]
theorem except_bind_ok {ε α β : Type} (a : α) (f : α → Except ε β) :
    (Except.ok a >>= f : Except ε β) = f a := rfl

/-- Bind on a failed Except computation. -/
@[simp]
theorem except_bind_error {ε α β : Type} (e : ε) (f : α → Except ε β) :
    ((Except.error e : Except ε α) >>= f) = Except.error e := rfl

/-- ratAdd is rational addition. -/
theorem ratAdd_eq (a b : ℚ) : ratAdd a b = a + b := by
  rw [ratAdd, Rat.divInt_eq_div]
  have ha : ((a.den : ℚ)) ≠ 0 := by exact_mod_cast a.den_nz
  have hb : ((b.den : ℚ)) ≠ 0 := by exact_mod_cast b.den_nz
  push_cast
  conv_rhs => rw [← Rat.num_div_den a, ← Rat.num_div_den b]
  field_simp

/-- ratSub is rational subtraction. -/
theorem ratSub_eq (a b : ℚ) : ratSub a b = a - b := by
  rw [ratSub, Rat.divInt_eq_div]
  have ha : ((a.den : ℚ)) ≠ 0 := by exact_mod_cast a.den_nz
  have hb : ((b.den : ℚ)) ≠ 0 := by exact_mod_cast b.den_nz
  push_cast
  conv_rhs => rw [← Rat.num_div_den a, ← Rat.num_div_den b]
  field_simp
  ring

/-- ratDiv is rational division. -/
theorem ratDiv_eq (a b : ℚ) : ratDiv a b = a / b := by
  rcases eq_or_ne b 0 with hb | hb
  · subst hb
    rw [ratDiv]
    norm_num
  · rw [ratDiv, Rat.divInt_eq_div]
    have ha : ((a.den : ℚ)) ≠ 0 := by exact_mod_cast a.den_nz
    have hbd : ((b.den : ℚ)) ≠ 0 := by exact_mod_cast b.den_nz
    have hbn : ((b.num : ℚ)) ≠ 0 := by
      exact_mod_cast Rat.num_ne_zero.mpr hb
    push_cast
    conv_rhs => rw [← Rat.num_div_den a, ← Rat.num_div_den b]
    field_simp

/-- The constant sixty used in the minute conversions. -/
theorem divInt_sixty : Rat.divInt 60 1 = (60 : ℚ) := by
  rw [Rat.divInt_eq_div]
  norm_num

/-- Inversion of bind on Except: success of the whole means success of both
stages. -/
theorem except_bind_ok_iff {ε α β : Type} (m : Except ε α) (f : α → Except ε β) (b : β) :
    (m >>= f) = Except.ok b ↔ ∃ a, m = Except.ok a ∧ f a = Except.ok b := by
  cases m <;> simp

/-- pyGet succeeds exactly on an in-range index. -/
theorem pyGet_ok_iff (a : List String) (i : Nat) (s : String) :
    pyGet a i = Except.ok s ↔ a[i]? = some s := by
  rw [pyGet]
  cases h : a[i]? <;> simp

/-- pyFloat succeeds exactly on a numeric string. -/
theorem pyFloat_ok_iff (s : String) (q : ℚ) :
    pyFloat s = Except.ok q ↔ parseFloat s = some q := by
  rw [pyFloat]
  cases h : parseFloat s <;> simp

/-- A successful list lookup read through getD. -/
theorem getD_of_lookup (a : List String) (i : Nat) (s : String) (h : a[i]? = some s) :
    a.getD i "" = s := by
  simp [List.getD_eq_getElem?_getD, h]

/-- Inversion of a successful run of response_array2dict: every one of the
seven fields was present and converted, and the record is built from the
conversions with the longitude negated. -/
theorem response_array2dict_ok (a : List String) (r : ResultDict)
    (h : response_array2dict a = Except.ok r) :
    ∃ s0 s1 s2 s3 s4 s5 s6 v0 v1 v2 v3 v4 v5 v6,
      a[0]? = some s0 ∧ parseFloat s0 = some v0 ∧
      a[1]? = some s1 ∧ parseFloat s1 = some v1 ∧
      a[2]? = some s2 ∧ parseFloat s2 = some v2 ∧
      a[3]? = some s3 ∧ parseFloat s3 = some v3 ∧
      a[4]? = some s4 ∧ parseFloat s4 = some v4 ∧
      a[5]? = some s5 ∧ parseFloat s5 = some v5 ∧
      a[6]? = some s6 ∧ parseFloat s6 = some v6 ∧
      r = { decimal_year := v0, latitude := v1, longitude := -v2, elevation := v3,
            declination := v4, decl_sv := v5, decl_uncertainty := v6 } := by
  simp only [response_array2dict, except_bind_ok_iff, pyGet_ok_iff, pyFloat_ok_iff,
    pure, Except.pure, Except.ok.injEq] at h
  obtain ⟨s0, h0, v0, hv0, s1, h1, v1, hv1, s2, h2, v2, hv2, s3, h3, v3, hv3,
    s4, h4, v4, hv4, s5, h5, v5, hv5, s6, h6, v6, hv6, hr⟩ := h
  exact ⟨s0, s1, s2, s3, s4, s5, s6, v0, v1, v2, v3, v4, v5, v6,
    h0, hv0, h1, hv1, h2, hv2, h3, hv3, h4, hv4, h5, hv5, h6, hv6, hr.symm⟩

/-! Claim theorems. -/

/-- C6: for every raw response with at least two newline-delimited lines,
response2dict decodes the second-to-last line by splitting it on commas and
mapping the fields positionally to decimal_year (0), latitude (1), longitude
(2, sign-negated) and declination (4); on the sample row the declination is
5.52539 and the longitude 101.1. -/
theorem response_decoder_positional_mapping :
    (∀ a r, response_array2dict a = Except.ok r →
      parseFloat (a.getD 0 "") = some r.decimal_year ∧
      parseFloat (a.getD 1 "") = some r.latitude ∧
      (∃ v, parseFloat (a.getD 2 "") = some v ∧ r.longitude = -v) ∧
      parseFloat (a.getD 4 "") = some r.declination) ∧
    (∀ s, 2 ≤ (pySplitChar '\n' s).length →
      response2dict s = response_array2dict
        (pySplitChar ',' ((pySplitChar '\n' s).getD ((pySplitChar '\n' s).length - 2) ""))) ∧
    (response2dict sample_response = Except.ok sample_record ∧
      sample_record.declination = (5.52539 : ℚ) ∧
      sample_record.longitude = (101.1 : ℚ)) := by
  refine ⟨?_, ?_, ?_, ?_, ?_⟩
  · intro a r h
    obtain ⟨s0, s1, s2, s3, s4, s5, s6, v0, v1, v2, v3, v4, v5, v6,
      h0, hv0, h1, hv1, h2, hv2, h3, hv3, h4, hv4, h5, hv5, h6, hv6, hr⟩ :=
      response_array2dict_ok a r h
    subst hr
    refine ⟨?_, ?_, ⟨v2, ?_, rfl⟩, ?_⟩
    · rw [getD_of_lookup a 0 s0 h0]; exact hv0
    · rw [getD_of_lookup a 1 s1 h1]; exact hv1
    · rw [getD_of_lookup a 2 s2 h2]; exact hv2
    · rw [getD_of_lookup a 4 s4 h4]; exact hv4
  · intro s h
    rw [response2dict, if_pos h]
  · rfl
  · show Rat.divInt 552539 100000 = (5.52539 : ℚ)
    rw [Rat.divInt_eq_div]; norm_num
  · show Rat.divInt 1011 10 = (101.1 : ℚ)
    rw [Rat.divInt_eq_div]; norm_num

/-- Witness for C6: the positional mapping applied to the sample fields and
record, and the second-to-last-line selection applied to the sample
response. -/
theorem response_decoder_positional_mapping_witness :
    (parseFloat (sample_fields.getD 0 "") = some sample_record.decimal_year ∧
      parseFloat (sample_fields.getD 1 "") = some sample_record.latitude ∧
      (∃ v, parseFloat (sample_fields.getD 2 "") = some v ∧ sample_record.longitude = -v) ∧
      parseFloat (sample_fields.getD 4 "") = some sample_record.declination) ∧
    response2dict sample_response = response_array2dict
      (pySplitChar ',' ((pySplitChar '\n' sample_response).getD
        ((pySplitChar '\n' sample_response).length - 2) "")) :=
  ⟨response_decoder_positional_mapping.1 sample_fields sample_record (by rfl),
    response_decoder_positional_mapping.2.1 sample_response (by decide)⟩

/-- C10: a successful decode requires all seven comma fields, the ones unused
by the output included, to be present and numeric; by contraposition decoding
fails whenever any of them is missing or non-numeric. -/
theorem response_decoder_requires_all_fields :
    ∀ a r i, response_array2dict a = Except.ok r → i < 7 →
      7 ≤ a.length ∧ ∃ v, parseFloat (a.getD i "") = some v := by
  intro a r i h hi
  obtain ⟨s0, s1, s2, s3, s4, s5, s6, v0, v1, v2, v3, v4, v5, v6,
    h0, hv0, h1, hv1, h2, hv2, h3, hv3, h4, hv4, h5, hv5, h6, hv6, _⟩ :=
    response_array2dict_ok a r h
  have hlen : 7 ≤ a.length := by
    have := (List.getElem?_eq_some_iff.mp h6).1
    omega
  refine ⟨hlen, ?_⟩
  interval_cases i
  · exact ⟨v0, by rw [getD_of_lookup a 0 s0 h0]; exact hv0⟩
  · exact ⟨v1, by rw [getD_of_lookup a 1 s1 h1]; exact hv1⟩
  · exact ⟨v2, by rw [getD_of_lookup a 2 s2 h2]; exact hv2⟩
  · exact ⟨v3, by rw [getD_of_lookup a 3 s3 h3]; exact hv3⟩
  · exact ⟨v4, by rw [getD_of_lookup a 4 s4 h4]; exact hv4⟩
  · exact ⟨v5, by rw [getD_of_lookup a 5 s5 h5]; exact hv5⟩
  · exact ⟨v6, by rw [getD_of_lookup a 6 s6 h6]; exact hv6⟩

/-- Witness for C10 at the unused secular-variation field (index 5) of the
sample row. -/
theorem response_decoder_requires_all_fields_witness :
    7 ≤ sample_fields.length ∧ ∃ v, parseFloat (sample_fields.getD 5 "") = some v :=
  response_decoder_requires_all_fields sample_fields sample_record 5 (by rfl) (by decide)

/-- C1: evaluation at the failing input.  On an 8-token line whose 8th token
is non-numeric, the driver does not report the numeric-conversion error in
the output: it passes the error string to get_response_dict as the request
parameters (the second conjunct shows the remote fetch is consulted: a
transport failure surfaces) and then raises TypeError while formatting, so
the run aborts and the following line is never processed. -/
theorem numeric_conversion_error_not_reported :
    process_inputfile_object (constOracle sample_response)
      ["2015 08 28  63 375  96 15  abc\n", "# next\n"] = Except.error PyExc.typeError ∧
    process_inputfile_object failingOracle
      ["2015 08 28  63 375  96 15  abc\n"] = Except.error PyExc.transportError :=
  ⟨by rfl, by rfl⟩

/-- C3: evaluation at the failing input.  Called with min_fields 2 on a line
of 3 tokens, line2array still reports the malformed-line error, because the
source compares the token count against the global n_FIELDS = 8 instead of
its parameter. -/
theorem min_fields_parameter_is_ignored :
    (pySplitWs (pyStrip "1 2 3")).length = 3 ∧
    line2array "1 2 3" 2 =
      Line2ArrayResult.error "Error: Bad input line- not enough entries." :=
  ⟨by decide, by rfl⟩

/-- C7: when the degree, minute and grid-offset fields of a token list of at
least 8 tokens convert, the query builder succeeds with decimal latitude
deg + min divided by 60 and likewise for longitude, with no range check on
the minutes. -/
theorem query_builder_decimal_conversion :
    ∀ (a : List String) (d3 m4 d5 m6 g : ℚ),
      8 ≤ a.length →
      parseFloat (a.getD 3 "") = some d3 →
      parseFloat (a.getD 4 "") = some m4 →
      parseFloat (a.getD 5 "") = some d5 →
      parseFloat (a.getD 6 "") = some m6 →
      parseFloat (a.getD 7 "") = some g →
      ∃ q, line_array2query_dict a = QueryBuildResult.ok q ∧
        q.lat1 = d3 + m4 / 60 ∧ q.lon1 = d5 + m6 / 60 ∧ q.grid_offset = g := by
  intro a d3 m4 d5 m6 g hlen h3 h4 h5 h6 h7
  have look : ∀ i, i < 8 → a[i]? = some (a.getD i "") := by
    intro i hi
    have hil : i < a.length := lt_of_lt_of_le hi hlen
    rw [List.getD_eq_getElem?_getD, List.getElem?_eq_getElem hil]
    simp
  have hq : queryBody a = Except.ok {
      lat_d := a.getD 3 "", lat_m := a.getD 4 "", lon_d := a.getD 5 "", lon_m := a.getD 6 "",
      grid_offset := g,
      startYear := a.getD 0 "", startMonth := a.getD 1 "", startDay := a.getD 2 "",
      lat1 := ratAdd d3 (ratDiv m4 (Rat.divInt 60 1)),
      lon1 := ratAdd d5 (ratDiv m6 (Rat.divInt 60 1)),
      lat1Hemisphere := "N", lon1Hemisphere := "W", ajaz := "true",
      resultFormat := "csv", grid := "on" } := by
    simp only [queryBody, pyGet, look 0 (by omega), look 1 (by omega), look 2 (by omega),
      look 3 (by omega), look 4 (by omega), look 5 (by omega), look 6 (by omega),
      look 7 (by omega), pyFloat, h3, h4, h5, h6, h7, except_bind_ok]
    rfl
  refine ⟨_, by rw [line_array2query_dict, hq], ?_, ?_, rfl⟩
  · show ratAdd d3 (ratDiv m4 (Rat.divInt 60 1)) = d3 + m4 / 60
    rw [ratAdd_eq, ratDiv_eq, divInt_sixty]
  · show ratAdd d5 (ratDiv m6 (Rat.divInt 60 1)) = d5 + m6 / 60
    rw [ratAdd_eq, ratDiv_eq, divInt_sixty]

/-- Witness for C7: the end-to-end scenario line, with 375 minutes accepted
as given, yields decimal latitude 69.25 and decimal longitude 96.25. -/
theorem query_builder_decimal_conversion_witness :
    ∃ q, line_array2query_dict (pySplitWs (pyStrip test_line)) = QueryBuildResult.ok q ∧
      q.lat1 = (69.25 : ℚ) ∧ q.lon1 = (96.25 : ℚ) ∧ q.grid_offset = (-2.46 : ℚ) := by
  obtain ⟨q, hq, h1, h2, h3⟩ :=
    query_builder_decimal_conversion (pySplitWs (pyStrip test_line))
      (Rat.divInt 63 1) (Rat.divInt 375 1) (Rat.divInt 96 1) (Rat.divInt 15 1)
      (Rat.divInt (-246) 100)
      (by decide) (by rfl) (by rfl) (by rfl) (by rfl) (by rfl)
  refine ⟨q, hq, ?_, ?_, ?_⟩
  · rw [h1]
    norm_num [Rat.divInt_eq_div]
  · rw [h2]
    norm_num [Rat.divInt_eq_div]
  · rw [h3]
    norm_num [Rat.divInt_eq_div]

/-- Everything of the formatted line before the grid-declination field; used
to decompose processed_line in the statement about the grid declination. -/
def processed_line_head (in_dict : QueryDict) (site_dict : ResultDict) : String :=
  (padRight 4 in_dict.startYear ++ "-" ++ padLeft '0' 2 in_dict.startMonth ++ "-" ++
    padLeft '0' 2 in_dict.startDay) ++ " " ++
  (in_dict.lat_d ++ degreeSign ++ " " ++ in_dict.lat_m ++ primeSign) ++ " " ++
  (in_dict.lon_d ++ degreeSign ++ " " ++ in_dict.lon_m ++ primeSign) ++ " " ++
  (padLeft ' ' 6 (pyF3 in_dict.grid_offset) ++ " |") ++ " " ++
  (pyF3 site_dict.decimal_year ++ " " ++ padLeft ' ' 6 (pyF3 site_dict.latitude) ++
    degreeSign) ++ " " ++
  (padLeft ' ' 6 (pyF3 site_dict.longitude) ++ degreeSign) ++ " " ++
  pyF3 site_dict.declination ++ " "

/-- C8: the line formatter computes the grid declination inline as the
declination of the result minus the grid offset of the request, formatting it
as the final field; for declination 5.52539 and grid offset -2.46 the value
is 7.98539, exactly and so within tolerance one millionth. -/
theorem grid_declination_formatting :
    (∀ (q : QueryDict) (r : ResultDict),
      processed_line q r =
        processed_line_head q r ++ (pyF3 (r.declination - q.grid_offset) ++ degreeSign)) ∧
    sample_record.declination - sample_query.grid_offset = (7.98539 : ℚ) ∧
    |sample_record.declination - sample_query.grid_offset - (7.98539 : ℚ)| ≤ 1 / 1000000 := by
  have hval : sample_record.declination - sample_query.grid_offset = (7.98539 : ℚ) := by
    show Rat.divInt 552539 100000 - Rat.divInt (-246) 100 = (7.98539 : ℚ)
    norm_num [Rat.divInt_eq_div]
  refine ⟨?_, hval, ?_⟩
  · intro q r
    rw [processed_line, processed_line_head, ratSub_eq]
    simp [String.append_assoc]
  · rw [hval]
    norm_num

/-- C9: the line formatter is a pure function of the two records: identical
records give identical output text. -/
theorem line_formatter_deterministic :
    ∀ (q1 q2 : QueryDict) (r1 r2 : ResultDict), q1 = q2 → r1 = r2 →
      processed_line q1 r1 = processed_line q2 r2 := by
  intro q1 q2 r1 r2 hq hr
  rw [hq, hr]

/-- Witness for C9 at the sample records. -/
theorem line_formatter_deterministic_witness :
    processed_line sample_query sample_record = processed_line sample_query sample_record :=
  line_formatter_deterministic sample_query sample_query sample_record sample_record rfl rfl

/-- Counterexample to C5 as stated: a comment line that does not end with a
newline (the last line of a file) is not round-tripped exactly; the slice
line[:-1] removes its final character instead. -/
theorem comment_round_trip_cex :
    process_inputfile_object (constOracle "") ["# last"] = Except.ok ["# las"] ∧
    (("# las" == "# last") = false) :=
  ⟨by rfl, by rfl⟩

/-- C5 amended: for a comment or all-whitespace line that ends with a
newline, the output is exactly the line with the trailing newline removed. -/
theorem comment_blank_round_trip :
    ∀ (oracle : Oracle) (line : String),
      ((pyStrip line).data.head? = some '#' ∨ (pyStrip line).data = []) →
      line.data.getLast? = some '\n' →
      process_line_step oracle line = Except.ok [pyDropLast line] ∧
      (pyDropLast line).data ++ ['\n'] = line.data := by
  intro oracle line hcls hnl
  have hnone : line2array line n_FIELDS = Line2ArrayResult.none := by
    unfold line2array
    rcases hcls with h | h
    · obtain ⟨c, rest, hd⟩ : ∃ c rest, (pyStrip line).data = c :: rest := by
        cases hh : (pyStrip line).data with
        | nil => rw [hh] at h; simp at h
        | cons c rest => exact ⟨c, rest, rfl⟩
      rw [hd] at h ⊢
      simp only [List.head?_cons, Option.some.injEq] at h
      subst h
      simp [COMMENT_INDICATOR]
    · rw [h]
  constructor
  · rw [process_line_step, hnone]
  · have hne : line.data ≠ [] := by
      intro hh
      rw [hh] at hnl
      simp at hnl
    have hd := List.dropLast_append_getLast hne
    show (pyDropLast line).data ++ ['\n'] = line.data
    rw [pyDropLast]
    rwa [(List.getLast_eq_iff_getLast?_eq_some hne).mpr hnl] at hd

/-- Witness for C5 at a newline-terminated comment line. -/
theorem comment_blank_round_trip_witness :
    process_line_step (constOracle "") "# note\n" = Except.ok [pyDropLast "# note\n"] ∧
    (pyDropLast "# note\n").data ++ ['\n'] = "# note\n".data :=
  comment_blank_round_trip (constOracle "") "# note\n" (Or.inl (by decide)) (by decide)

/-- Whether line2array classifies the line as malformed (returns the error
string) under the n_FIELDS minimum the driver passes. -/
def isMalformedLine (line : String) : Bool :=
  match line2array line n_FIELDS with
  | .error _ => true
  | _ => false

/-- A successful step of the driver loop emits two output lines for a
malformed input line (marker plus echo) and one output line otherwise. -/
theorem process_line_step_ok_length (oracle : Oracle) (l : String) (o : List String)
    (h : process_line_step oracle l = Except.ok o) :
    o.length = if isMalformedLine l then 2 else 1 := by
  unfold process_line_step at h
  unfold isMalformedLine
  cases hl : line2array l n_FIELDS with
  | none =>
      rw [hl] at h
      simp only [Except.ok.injEq] at h
      subst h
      simp
  | error msg =>
      rw [hl] at h
      simp only [Except.ok.injEq] at h
      subst h
      simp
  | parts arr =>
      rw [hl] at h
      dsimp only at h ⊢
      cases hq : line_array2query_dict arr with
      | exn e =>
          rw [hq] at h
          simp at h
      | errorString s =>
          rw [hq] at h
          dsimp only at h
          cases hg : get_response_dict oracle (.str s) with
          | ok t =>
              rw [hg] at h
              simp at h
          | error e =>
              rw [hg] at h
              simp at h
      | ok q =>
          rw [hq] at h
          dsimp only at h
          cases hg : get_response_dict oracle (.dict q) with
          | ok rd =>
              rw [hg] at h
              simp only [except_bind_ok, Except.ok.injEq] at h
              subst h
              simp
          | error e =>
              rw [hg] at h
              simp at h

/-- Counterexample to C4 as stated: one malformed input line yields two
output lines (the diagnostic marker and the echoed line), so the output line
count is not the input line count. -/
theorem malformed_line_doubles_output_cex :
    process_inputfile_object (constOracle "") ["x\n"] =
      Except.ok [malformedMarker, "x"] ∧
    (([malformedMarker, "x"] : List String).length ==
      (["x\n"] : List String).length) = false :=
  ⟨by rfl, by rfl⟩

/-- C4 amended: when the driver finishes without an uncaught exception, the
output is the in-order concatenation of the per-line outputs, and its length
is the number of input lines plus the number of malformed ones (each of
which contributes the extra diagnostic marker line). -/
theorem output_order_and_count :
    ∀ (oracle : Oracle) (lines out : List String),
      process_inputfile_object oracle lines = Except.ok out →
      ∃ pieces : List (List String),
        List.Forall₂ (fun l o => process_line_step oracle l = Except.ok o) lines pieces ∧
        out = pieces.flatten ∧
        out.length = lines.length + lines.countP (fun l => isMalformedLine l) := by
  intro oracle lines
  induction lines with
  | nil =>
      intro out h
      unfold process_inputfile_object at h
      simp only [Except.ok.injEq] at h
      subst h
      exact ⟨[], List.Forall₂.nil, by simp, by simp⟩
  | cons l rest ih =>
      intro out h
      unfold process_inputfile_object at h
      cases hstep : process_line_step oracle l with
      | error e =>
          rw [hstep] at h
          simp at h
      | ok o1 =>
          rw [hstep] at h
          cases hrest : process_inputfile_object oracle rest with
          | error e =>
              rw [hrest] at h
              simp at h
          | ok or1 =>
              rw [hrest] at h
              simp only [except_bind_ok, pure, Except.pure, Except.ok.injEq] at h
              subst h
              obtain ⟨pieces, hfa, hjoin, hlen⟩ := ih or1 hrest
              refine ⟨o1 :: pieces, List.Forall₂.cons hstep hfa, by simp [hjoin], ?_⟩
              have h1 := process_line_step_ok_length oracle l o1 hstep
              rw [List.length_append, hlen, List.countP_cons, List.length_cons]
              cases hm : isMalformedLine l
              · rw [hm] at h1
                simp at h1 ⊢
                omega
              · rw [hm] at h1
                simp at h1 ⊢
                omega

/-- Witness for C4: a comment line and a malformed line give three output
lines in input order. -/
theorem output_order_and_count_witness :
    ∃ pieces : List (List String),
      List.Forall₂ (fun l o => process_line_step (constOracle "") l = Except.ok o)
        ["# a\n", "x\n"] pieces ∧
      ["# a", malformedMarker, "x"] = pieces.flatten ∧
      (["# a", malformedMarker, "x"] : List String).length =
        (["# a\n", "x\n"] : List String).length +
          (["# a\n", "x\n"] : List String).countP (fun l => isMalformedLine l) :=
  output_order_and_count (constOracle "") ["# a\n", "x\n"]
    ["# a", malformedMarker, "x"] (by rfl)

/-- The driver loop body on the test line reaches the remote fetch with the
query dict built from the line. -/
theorem process_line_step_test_line (oracle : Oracle) :
    process_line_step oracle (test_line ++ "\n") =
      (get_response_dict oracle (Params.dict sample_query) >>= fun rd =>
        Except.ok [processed_line sample_query rd]) := rfl

/-- Counterexample to C2 as stated: a data line whose response has fewer than
two newline-delimited lines makes the whole run abort with an uncaught
IndexError; no per-line error result appears and the following comment line
is never processed. -/
theorem decode_failure_aborts_run_cex :
    process_inputfile_object (constOracle "") [test_line ++ "\n", "# next\n"] =
      Except.error PyExc.indexError := by rfl

/-- C2 amended: a failure of the response decoder (here: a response with
fewer than two lines) or of the remote fetch raises an uncaught exception
that terminates the whole run, whatever lines follow. -/
theorem decode_and_transport_failures_abort_run :
    ∀ (oracle : Oracle) (rest : List String),
      ((∀ p, oracle p = Except.ok "") →
        process_inputfile_object oracle ((test_line ++ "\n") :: rest) =
          Except.error PyExc.indexError) ∧
      ((∀ p, oracle p = Except.error PyExc.transportError) →
        process_inputfile_object oracle ((test_line ++ "\n") :: rest) =
          Except.error PyExc.transportError) := by
  intro oracle rest
  constructor
  · intro h
    have hstep : process_line_step oracle (test_line ++ "\n") =
        Except.error PyExc.indexError := by
      rw [process_line_step_test_line oracle, get_response_dict,
        h (Params.dict sample_query)]
      rfl
    unfold process_inputfile_object
    rw [hstep]
    rfl
  · intro h
    have hstep : process_line_step oracle (test_line ++ "\n") =
        Except.error PyExc.transportError := by
      rw [process_line_step_test_line oracle, get_response_dict,
        h (Params.dict sample_query)]
      rfl
    unfold process_inputfile_object
    rw [hstep]
    rfl

/-- Witness for C2: the two failure modes at concrete oracles. -/
theorem decode_and_transport_failures_abort_run_witness :
    process_inputfile_object (constOracle "") ((test_line ++ "\n") :: ["# ok\n"]) =
      Except.error PyExc.indexError ∧
    process_inputfile_object failingOracle ((test_line ++ "\n") :: ["# ok\n"]) =
      Except.error PyExc.transportError :=
  ⟨(decode_and_transport_failures_abort_run (constOracle "") ["# ok\n"]).1 (fun _ => rfl),
    (decode_and_transport_failures_abort_run failingOracle ["# ok\n"]).2 (fun _ => rfl)⟩

end Declination

